import Mathlib

/-!
Shallow embedding of the query logic of `src/app.py`.

The application is a Flask front-end over a PostgreSQL store with two
annotation tables:

* `ns.annotations_terms` rows carry `(study_id, term)`;
* `ns.coordinates` rows carry `(study_id, x, y, z)`.

We embed a database snapshot as a list of rows and each route handler as a
pure function over that list, translating the SQL it issues:

* `term LIKE '%q%'` / `term ILIKE '%q%'` become `likeContains` /
  `ilikeContains` (full PostgreSQL pattern semantics: `%` matches any
  sequence, `_` matches any single character, and a backslash — the
  default escape character — makes the next character match literally
  and is itself consumed; `ILIKE` folds ASCII case on both sides, which
  is what PostgreSQL's `ILIKE` does for ASCII data);
* `SELECT DISTINCT` becomes `List.dedup`, `LIMIT n` becomes `List.take n`,
  `COUNT(DISTINCT ...)` becomes the length of the deduplicated list,
  `INTERSECT` becomes deduplicated filtering, `NOT IN` becomes negated
  membership;
* Python's `coords.split("_")` and `int(...)` become `splitUnd` and
  `parseIntPy`, and `x, y, z = map(int, parts)` fails unless exactly three
  parts all parse, which `parseCoords` returns as `Option`.

The row order of a `SELECT` without `ORDER BY` is unspecified; the claims
below only depend on the underlying sets and counts.
-/

namespace YoMuscle

/-- ASCII case folding of a single character: the 26 basic latin capitals
map to their lower-case forms, everything else is unchanged.  This is the
folding PostgreSQL's `ILIKE` applies to ASCII data. -/
def lowerC : Char → Char
  | 'A' => 'a' | 'B' => 'b' | 'C' => 'c' | 'D' => 'd' | 'E' => 'e' | 'F' => 'f'
  | 'G' => 'g' | 'H' => 'h' | 'I' => 'i' | 'J' => 'j' | 'K' => 'k' | 'L' => 'l'
  | 'M' => 'm' | 'N' => 'n' | 'O' => 'o' | 'P' => 'p' | 'Q' => 'q' | 'R' => 'r'
  | 'S' => 's' | 'T' => 't' | 'U' => 'u' | 'V' => 'v' | 'W' => 'w' | 'X' => 'x'
  | 'Y' => 'y' | 'Z' => 'z'
  | c => c

/-- ASCII case folding of a character list. -/
def lowerL (l : List Char) : List Char := l.map lowerC

/-- Models Python's `s.replace("_", " ")` (every underscore becomes a
space; all other characters are unchanged). -/
def mapU (l : List Char) : List Char := l.map fun c => if c = '_' then ' ' else c

/-- String-level wrapper for `mapU`, the `term.replace("_", " ")` step of
`dissociate_terms`, `term_count` and `intersection_count`. -/
def replU (s : String) : String := String.mk (mapU s.data)

/-- The suffixes of a character list, longest first, ending with `[]`. -/
def suffixes : List Char → List (List Char)
  | [] => [[]]
  | c :: cs => (c :: cs) :: suffixes cs

/-- One token of a scanned `LIKE` pattern: an unescaped `%`, an unescaped
`_`, a character to be matched literally (either directly or via the `\`
escape), or a dangling escape at the end of the pattern — which
PostgreSQL rejects ("LIKE pattern must not end with escape character")
and which therefore matches nothing.  Dangling escapes cannot arise from
the patterns `'%' ++ term ++ '%'` the handlers build, because the escape
would consume the closing `%`. -/
inductive LikeTok where
  | star : LikeTok
  | one : LikeTok
  | lit : Char → LikeTok
  | bad : LikeTok
  deriving DecidableEq

/-- Scan a `LIKE` pattern into tokens, honouring PostgreSQL's default
escape character `\`: a backslash makes the following character match
literally and is itself consumed. -/
def likeToks : List Char → List LikeTok
  | [] => []
  | [p] =>
    if p = '\\' then [.bad]
    else if p = '%' then [.star]
    else if p = '_' then [.one]
    else [.lit p]
  | p :: e :: ps =>
    if p = '\\' then .lit e :: likeToks ps
    else if p = '%' then .star :: likeToks (e :: ps)
    else if p = '_' then .one :: likeToks (e :: ps)
    else .lit p :: likeToks (e :: ps)

/-- Match a token-scanned `LIKE` pattern: `star` matches any (possibly
empty) sequence, `one` matches exactly one character, `lit e` matches
exactly `e`, and `bad` matches nothing. -/
def tokMatch : List LikeTok → List Char → Bool
  | [], cs => cs.isEmpty
  | .star :: ps, cs => (suffixes cs).any fun s => tokMatch ps s
  | .one :: ps, cs =>
    match cs with
    | [] => false
    | _ :: cs' => tokMatch ps cs'
  | .lit e :: ps, cs =>
    match cs with
    | [] => false
    | c :: cs' => (e == c) && tokMatch ps cs'
  | .bad :: _, _ => false

/-- PostgreSQL `LIKE` pattern matching: `%` matches any (possibly empty)
sequence, `_` matches exactly one character, `\x` matches the literal
`x` (default escape, no `ESCAPE` clause needed), anything else matches
itself. -/
def likeMatch (ps cs : List Char) : Bool := tokMatch (likeToks ps) cs

/-- `t LIKE '%q%'`: the pattern every term route builds as `f"%{term}%"`. -/
def likeContains (q t : List Char) : Bool := likeMatch ('%' :: (q ++ ['%'])) t

/-- `t ILIKE '%q%'`: case-insensitive `LIKE`, i.e. `LIKE` after ASCII case
folding of both the pattern and the target (used only by `search_term`).
Folding the pattern before scanning is sound because folding fixes `%`,
`_` and `\`. -/
def ilikeContains (q t : List Char) : Bool := likeContains (lowerL q) (lowerL t)

/-- Plain (case-sensitive) substring containment of `q` in `t`. -/
def substrB (q : List Char) : List Char → Bool
  | [] => q.isEmpty
  | c :: cs => q.isPrefixOf (c :: cs) || substrB q cs

/-- `l` contains no character that is special in a `LIKE` pattern:
neither wildcard (`%`, `_`) nor the escape character (`\`). -/
def noWild (l : List Char) : Prop := ∀ c ∈ l, c ≠ '%' ∧ c ≠ '_' ∧ c ≠ '\\'

/-- `l` contains neither `%` nor `\` (after underscore replacement these
are the only `LIKE`-special characters that can survive in a query). -/
def noPct (l : List Char) : Prop := ∀ c ∈ l, c ≠ '%' ∧ c ≠ '\\'

instance (l : List Char) : Decidable (noWild l) := by
  unfold noWild; infer_instance

instance (l : List Char) : Decidable (noPct l) := by
  unfold noPct; infer_instance

theorem nil_mem_suffixes (t : List Char) : [] ∈ suffixes t := by
  induction t with
  | nil => simp [suffixes]
  | cons c cs ih => exact List.mem_cons_of_mem _ ih

theorem isPrefixOf_nil_right (q : List Char) :
    q.isPrefixOf ([] : List Char) = q.isEmpty := by
  cases q <;> rfl

theorem substrB_correct (q t : List Char) : substrB q t = true ↔ q <:+: t := by
  induction t with
  | nil =>
    cases q with
    | nil => simp [substrB]
    | cons a q' => simp [substrB, List.isEmpty]
  | cons c cs ih =>
    simp [substrB, List.infix_cons_iff, ih]

theorem tokMatch_star (ps : List LikeTok) (cs : List Char) :
    tokMatch (.star :: ps) cs = (suffixes cs).any fun s => tokMatch ps s := rfl

theorem tokMatch_lit_nil (e : Char) (ps : List LikeTok) :
    tokMatch (.lit e :: ps) [] = false := rfl

theorem tokMatch_lit_cons (e : Char) (ps : List LikeTok) (c : Char) (cs : List Char) :
    tokMatch (.lit e :: ps) (c :: cs) = ((e == c) && tokMatch ps cs) := rfl

theorem likeToks_cons_pct (l : List Char) :
    likeToks ('%' :: l) = .star :: likeToks l := by
  cases l with
  | nil => rfl
  | cons e ps => rfl

theorem likeToks_cons_lit (p : Char) (hp : p ≠ '%') (hu : p ≠ '_') (he : p ≠ '\\')
    (l : List Char) : likeToks (p :: l) = .lit p :: likeToks l := by
  cases l with
  | nil => simp [likeToks, hp, hu, he]
  | cons e ps => simp [likeToks, hp, hu, he]

/-- Scanning a pattern that starts with an escape-free, wildcard-free
block turns that block into literal tokens. -/
theorem likeToks_noWild (q : List Char) (h : noWild q) (l : List Char) :
    likeToks (q ++ l) = q.map LikeTok.lit ++ likeToks l := by
  induction q with
  | nil => rfl
  | cons a q' ih =>
    have ha := h a (List.mem_cons_self a q')
    have h' : noWild q' := fun c hc => h c (List.mem_cons_of_mem a hc)
    rw [List.cons_append, likeToks_cons_lit a ha.1 ha.2.1 ha.2.2, ih h']
    rfl

/-- A block of literal tokens followed by `star` matches `t` exactly when
the block is a prefix of `t`. -/
theorem tokMatch_litAppend (q t : List Char) :
    tokMatch (q.map LikeTok.lit ++ [.star]) t = q.isPrefixOf t := by
  induction q generalizing t with
  | nil =>
    rw [List.map_nil, List.nil_append, List.isPrefixOf_nil_left, tokMatch_star,
      List.any_eq_true]
    exact ⟨[], nil_mem_suffixes t, rfl⟩
  | cons a q' ih =>
    cases t with
    | nil => rfl
    | cons c cs =>
      rw [List.map_cons, List.cons_append, tokMatch_lit_cons, ih,
        List.isPrefixOf_cons₂]

theorem likeContains_eq_substrB (q : List Char) (h : noWild q) (t : List Char) :
    likeContains q t = substrB q t := by
  unfold likeContains likeMatch
  rw [likeToks_cons_pct, likeToks_noWild q h,
    show likeToks ['%'] = [LikeTok.star] from rfl, tokMatch_star]
  induction t with
  | nil =>
    simp [suffixes, tokMatch_litAppend, isPrefixOf_nil_right, substrB]
  | cons c cs ih =>
    simp only [suffixes, List.any_cons]
    rw [ih, tokMatch_litAppend]
    rfl

theorem lowerC_wild (c : Char) (h1 : c ≠ '%') (h2 : c ≠ '_') (h3 : c ≠ '\\') :
    lowerC c ≠ '%' ∧ lowerC c ≠ '_' ∧ lowerC c ≠ '\\' := by
  unfold lowerC
  repeat' split
  all_goals first
  | exact ⟨h1, h2, h3⟩
  | decide

theorem noWild_lowerL (q : List Char) (h : noWild q) : noWild (lowerL q) := by
  intro c hc
  rcases List.mem_map.mp hc with ⟨a, ha, rfl⟩
  exact lowerC_wild a (h a ha).1 (h a ha).2.1 (h a ha).2.2

theorem noWild_mapU (q : List Char) (h : noPct q) : noWild (mapU q) := by
  intro c hc
  rcases List.mem_map.mp hc with ⟨a, ha, rfl⟩
  by_cases hu : a = '_'
  · subst hu
    decide
  · simp only [if_neg hu]
    exact ⟨(h a ha).1, hu, (h a ha).2⟩

theorem ilikeContains_eq_substrB (q t : List Char) (h : noWild q) :
    ilikeContains q t = substrB (lowerL q) (lowerL t) :=
  likeContains_eq_substrB (lowerL q) (noWild_lowerL q h) (lowerL t)

theorem mapU_idem (l : List Char) : mapU (mapU l) = mapU l := by
  unfold mapU
  rw [List.map_map]
  apply List.map_congr_left
  intro c _
  by_cases hu : c = '_' <;> simp [hu]

theorem replU_idem (s : String) : replU (replU s) = replU s := by
  unfold replU
  rw [mapU_idem]

theorem replU_data (s : String) : (replU s).data = mapU s.data := rfl

/-! ### The term side: `ns.annotations_terms` -/

/-- One row of `ns.annotations_terms`, reduced to the columns the term
routes use: `(study_id, term)`. -/
abbrev Row := Nat × String

/-- `SELECT DISTINCT study_id FROM ns.annotations_terms WHERE term LIKE '%q%'`
as a set: the distinct study ids of the rows whose term matches. -/
def studiesLike (rows : List Row) (q : String) : Finset Nat :=
  ((rows.filter fun r => likeContains q.data r.2.data).map (·.1)).toFinset

/-- Response shape of `GET /search_term/<term>`. -/
structure SearchTermResp where
  term : String
  «exists» : Bool
  «matches» : List String
  deriving DecidableEq

/-- Handler `search_term` (`GET /search_term/<term>`): runs
`SELECT DISTINCT term FROM ns.annotations_terms WHERE term ILIKE '%term%' LIMIT 10`
on the raw route parameter (this handler performs no underscore
replacement) and reports the matched terms and whether any exist. -/
def search_term (rows : List Row) (term : String) : SearchTermResp :=
  let ms :=
    (((rows.filter fun r => ilikeContains term.data r.2.data).map (·.2)).dedup).take 10
  { term := term, «exists» := decide (0 < ms.length), «matches» := ms }

/-- Response shape of `GET /terms/<term>/count`. -/
structure TermCountResp where
  term : String
  study_count : Nat
  deriving DecidableEq

/-- Handler `term_count` (`GET /terms/<term>/count`): replaces underscores
by spaces, then runs
`SELECT COUNT(DISTINCT study_id) FROM ns.annotations_terms WHERE term LIKE '%t%'`. -/
def term_count (rows : List Row) (term : String) : TermCountResp :=
  let t := replU term
  { term := t
    study_count :=
      (((rows.filter fun r => likeContains t.data r.2.data).map (·.1)).dedup).length }

/-- SQL `INTERSECT` of two study-id columns: the distinct values present
in both. -/
def sqlIntersect (l1 l2 : List Nat) : List Nat :=
  (l1.filter fun x => decide (x ∈ l2)).dedup

/-- Response shape of `GET /terms/<term_a>/<term_b>/intersection_count`. -/
structure IntersectionResp where
  intersection_count : Nat
  term_a : String
  term_b : String
  deriving DecidableEq

/-- Handler `intersection_count`
(`GET /terms/<term_a>/<term_b>/intersection_count`): replaces underscores
by spaces in both terms, then counts the rows of
`(SELECT study_id ... WHERE term LIKE '%a%') INTERSECT (SELECT study_id ... WHERE term LIKE '%b%')`. -/
def intersection_count (rows : List Row) (term_a term_b : String) : IntersectionResp :=
  let a := replU term_a
  let b := replU term_b
  let l1 := (rows.filter fun r => likeContains a.data r.2.data).map (·.1)
  let l2 := (rows.filter fun r => likeContains b.data r.2.data).map (·.1)
  { intersection_count := (sqlIntersect l1 l2).length, term_a := a, term_b := b }

/-- Response shape of `GET /dissociate/terms/<term_a>/<term_b>`. -/
structure DissocTermsResp where
  study_count : Nat
  dissociated_studies : List Nat
  deriving DecidableEq

/-- Handler `dissociate_terms` (`GET /dissociate/terms/<term_a>/<term_b>`):
replaces underscores by spaces in both terms, then runs
`SELECT DISTINCT study_id ... WHERE term LIKE '%a%' AND study_id NOT IN
(SELECT study_id ... WHERE term LIKE '%b%')` and returns the resulting
ids together with their count. -/
def dissociate_terms (rows : List Row) (term_a term_b : String) : DissocTermsResp :=
  let a := replU term_a
  let b := replU term_b
  let bIds := (rows.filter fun r => likeContains b.data r.2.data).map (·.1)
  let studies :=
    ((rows.filter fun r : Row =>
        likeContains a.data r.2.data && !decide (r.1 ∈ bIds)).map (·.1)).dedup
  { study_count := studies.length, dissociated_studies := studies }

/-! ### The coordinate side: `ns.coordinates` -/

/-- One row of `ns.coordinates`: a study id and the integer coordinates
the queries compare against (`ST_X`/`ST_Y`/`ST_Z` of the stored point). -/
structure CoordRow where
  study_id : Nat
  x : Int
  y : Int
  z : Int
  deriving DecidableEq

/-- `SELECT DISTINCT study_id FROM ns.coordinates WHERE ST_X(geom) = x AND
ST_Y(geom) = y AND ST_Z(geom) = z` as a set. -/
def studiesAt (rows : List CoordRow) (c : Int × Int × Int) : Finset Nat :=
  ((rows.filter fun r =>
      decide (r.x = c.1 ∧ r.y = c.2.1 ∧ r.z = c.2.2)).map (·.study_id)).toFinset

/-- Response shape of `GET /dissociate/locations/<coords1>/<coords2>`; the
handler materialises both Python sets as lists, which we keep as the sets
themselves (iteration order of a Python set is unspecified). -/
structure DissocLocResp where
  a_to_b : Finset Nat
  b_to_a : Finset Nat
  deriving DecidableEq

/-- Body of `dissociate_locations` once the two coordinate literals have
been parsed: `a_to_b = studies1 - studies2` and `b_to_a = studies2 - studies1`. -/
def dissociate_locations_core (rows : List CoordRow) (c1 c2 : Int × Int × Int) :
    DissocLocResp :=
  { a_to_b := studiesAt rows c1 \ studiesAt rows c2
    b_to_a := studiesAt rows c2 \ studiesAt rows c1 }

/-- Python's `coords.split("_")` at the character level: split at every
underscore, keeping empty pieces (the result is always non-empty). -/
def splitUnd : List Char → List (List Char)
  | [] => [[]]
  | c :: cs =>
    match splitUnd cs with
    | [] => if c = '_' then [[], []] else [[c]]
    | h :: t => if c = '_' then [] :: h :: t else (c :: h) :: t

/-- The ASCII whitespace Python's `int` strips from its argument. -/
def isWS (c : Char) : Bool := c = ' ' || c = '\t' || c = '\n' || c = '\r'

/-- Strip leading and trailing whitespace. -/
def trimWS (l : List Char) : List Char :=
  ((l.dropWhile isWS).reverse.dropWhile isWS).reverse

/-- Value of a non-empty all-digit string, `none` otherwise. -/
def parseDigits (l : List Char) : Option Nat :=
  if l ≠ [] ∧ l.all Char.isDigit then
    some (l.foldl (fun a c => a * 10 + (c.toNat - 48)) 0)
  else none

/-- Python's `int(s)` on a piece of a coordinate literal: strip
whitespace, allow one sign, then base-10 digits; anything else raises
`ValueError` (`none`).  Pieces produced by splitting on `_` cannot contain
the PEP 515 digit separator, so it is not modelled. -/
def parseIntPy (l : List Char) : Option Int :=
  match trimWS l with
  | '-' :: rest => (parseDigits rest).map fun n => -(n : Int)
  | '+' :: rest => (parseDigits rest).map fun n => (n : Int)
  | l' => (parseDigits l').map fun n => (n : Int)

/-- All-or-nothing evaluation of `map(int, parts)`: `some` of the parsed
values when every part parses, `none` as soon as one of them raises. -/
def optMap (f : List Char → Option Int) : List (List Char) → Option (List Int)
  | [] => some []
  | x :: xs => (f x).bind fun v => (optMap f xs).map fun vs => v :: vs

/-- `x, y, z = map(int, coords.split("_"))`: succeeds exactly when the
literal splits into three pieces that all parse as base-10 integers. -/
def parseCoords (s : String) : Option (Int × Int × Int) :=
  match optMap parseIntPy (splitUnd s.data) with
  | some [x, y, z] => some (x, y, z)
  | _ => none

/-- Handler `get_studies_by_coordinates` (`GET /locations/<coords>/studies`):
parses the literal and echoes the coordinates back (the observed handler
does no lookup); a malformed literal raises instead of producing
coordinates. -/
def get_studies_by_coordinates (coords : String) : Option (Int × Int × Int) :=
  parseCoords coords

/-- Handler `dissociate_locations`
(`GET /dissociate/locations/<coords1>/<coords2>`): parse both literals,
then dissociate; a parse failure is caught and reported as an error
(`none`). -/
def dissociate_locations (rows : List CoordRow) (coords1 coords2 : String) :
    Option DissocLocResp :=
  match parseCoords coords1, parseCoords coords2 with
  | some c1, some c2 => some (dissociate_locations_core rows c1 c2)
  | _, _ => none

/-- Handler `get_studies_by_term` (`GET /terms/<term>/studies`): the body
is `return term` — it echoes the route parameter and touches no index. -/
def get_studies_by_term (term : String) : String := term

/-! ### Spec-side study sets, for comparison with what the code computes -/

/-- Case-sensitive variant of the spec's study set: the distinct study
ids of the rows whose stored term contains `q` as a case-sensitive
substring.  For wildcard-free queries this is what the `LIKE`-based
routes compute. -/
def studiesContaining (rows : List Row) (q : List Char) : Finset Nat :=
  ((rows.filter fun r => substrB q r.2.data).map (·.1)).toFinset

/-- Spec-side definition, following §4.1 of the spec:
`studiesMatchingSubstring(snapshot, query)` is the set of study ids of
every stored term whose ASCII case-folded form contains the case-folded
query as a substring, the query having had underscores normalised to
spaces at the boundary (§6). -/
def studiesMatchingSubstring (rows : List Row) (q : String) : Finset Nat :=
  ((rows.filter fun r =>
      substrB (lowerL (replU q).data) (lowerL r.2.data)).map (·.1)).toFinset

/-! ### Helper lemmas shared by the claims -/

theorem filter_none {α : Type} {p : α → Bool} {l : List α}
    (h : ∀ x ∈ l, p x = false) : l.filter p = [] := by
  induction l with
  | nil => rfl
  | cons a l ih =>
    rw [List.filter_cons_of_neg (by simp [h a (List.mem_cons_self a l)])]
    exact ih fun x hx => h x (List.mem_cons_of_mem a hx)

theorem dedup_toFinsetN (l : List Nat) : l.dedup.toFinset = l.toFinset :=
  List.toFinset.ext fun _ => List.mem_dedup

/-- For wildcard-free queries the `LIKE`-selected study set is the
case-sensitive containment set. -/
theorem studiesLike_eq (rows : List Row) (q : String) (h : noWild q.data) :
    studiesLike rows q = studiesContaining rows q.data := by
  unfold studiesLike studiesContaining
  rw [List.filter_congr fun r _ => likeContains_eq_substrB q.data h r.2.data]

/-- The count computed by `term_count` is the cardinality of the
case-sensitive containment set of the underscore-normalised query. -/
theorem term_count_card (rows : List Row) (t : String) (h : noPct t.data) :
    (term_count rows t).study_count = (studiesContaining rows (replU t).data).card := by
  have hw : noWild (replU t).data := noWild_mapU t.data h
  show (((rows.filter fun r =>
      likeContains (replU t).data r.2.data).map (·.1)).dedup).length = _
  rw [List.filter_congr fun r _ => likeContains_eq_substrB _ hw r.2.data]
  exact (List.card_toFinset _).symm

/-- The `exists` flag of `search_term` reports whether some stored term
case-insensitively contains the (wildcard-free) query. -/
theorem search_exists_iff (rows : List Row) (q : String) (hw : noWild q.data) :
    (search_term rows q).«exists» = true ↔
      ∃ r ∈ rows, substrB (lowerL q.data) (lowerL r.2.data) = true := by
  have hpt : ∀ r : Row, ilikeContains q.data r.2.data =
      substrB (lowerL q.data) (lowerL r.2.data) :=
    fun r => ilikeContains_eq_substrB q.data r.2.data hw
  have he : (search_term rows q).«exists» =
      decide (0 < (search_term rows q).«matches».length) := rfl
  have hm : (search_term rows q).«matches» =
      (((rows.filter fun r => ilikeContains q.data r.2.data).map (·.2)).dedup).take 10 :=
    rfl
  rw [he, decide_eq_true_eq, List.length_pos, hm]
  simp only [ne_eq, List.take_eq_nil_iff, List.dedup_eq_nil, List.map_eq_nil_iff,
    List.filter_eq_nil_iff, hpt]
  push_neg
  exact ⟨fun h => h.2, fun h => ⟨by omega, h⟩⟩

theorem optMap_some {f : List Char → Option Int} {l : List (List Char)}
    {vs : List Int} (h : optMap f l = some vs) :
    vs.length = l.length ∧ ∀ p ∈ l, f p ≠ none := by
  induction l generalizing vs with
  | nil =>
    have h' : (some [] : Option (List Int)) = some vs := h
    cases h'
    exact ⟨rfl, by simp⟩
  | cons x xs ih =>
    have h' : ((f x).bind fun v => (optMap f xs).map fun ws => v :: ws) = some vs := h
    rcases Option.bind_eq_some.mp h' with ⟨v, hv, hrest⟩
    rcases Option.map_eq_some'.mp hrest with ⟨ws, hws, rfl⟩
    obtain ⟨hl, hp⟩ := ih hws
    refine ⟨by simp [hl], ?_⟩
    intro p hp'
    rcases List.mem_cons.mp hp' with rfl | hmem
    · rw [hv]; exact fun hnone => Option.noConfusion hnone
    · exact hp p hmem

theorem sqlIntersect_length (l1 l2 : List Nat) :
    (sqlIntersect l1 l2).length = (l1.toFinset ∩ l2.toFinset).card := by
  unfold sqlIntersect
  rw [← List.card_toFinset]
  congr 1
  ext x
  simp [List.mem_toFinset, List.mem_filter, Finset.mem_inter]

/-- The value returned by `intersection_count` is the cardinality of the
intersection of the two `LIKE`-selected study sets. -/
theorem intersection_count_val (rows : List Row) (a b : String) :
    (intersection_count rows a b).intersection_count =
      (studiesLike rows (replU a) ∩ studiesLike rows (replU b)).card := by
  show (sqlIntersect _ _).length = _
  rw [sqlIntersect_length]
  rfl

/-! ### The claims -/

/-- C10: the `/terms/<term>/studies` handler returns its input string
unchanged — it performs no normalisation, no index lookup, and never
fails. -/
theorem C10_theorem (term : String) : get_studies_by_term term = term := rfl

/-- C7: coordinate parsing round-trips on `"3_-5_10"`, rejects `"1_2"`,
and every successfully parsed literal splits on underscores into exactly
three pieces, each of which parses as a base-10 integer. -/
theorem C7_theorem :
    parseCoords "3_-5_10" = some (3, -5, 10) ∧
    parseCoords "1_2" = none ∧
    ∀ (s : String) (c : Int × Int × Int), parseCoords s = some c →
      (splitUnd s.data).length = 3 ∧ ∀ p ∈ splitUnd s.data, parseIntPy p ≠ none := by
  refine ⟨by decide, by decide, ?_⟩
  intro s c h
  unfold parseCoords at h
  cases heq : optMap parseIntPy (splitUnd s.data) with
  | none => rw [heq] at h; cases h
  | some vs =>
    rw [heq] at h
    obtain ⟨hlen, hp⟩ := optMap_some heq
    rcases vs with _ | ⟨x, _ | ⟨y, _ | ⟨z, _ | w⟩⟩⟩ <;> simp at h
    exact ⟨by rw [← hlen]; rfl, hp⟩

/-- C7 witness: the general clause of `C7_theorem` instantiated at the
concrete literal `"3_-5_10"`. -/
theorem C7_witness :
    parseCoords "3_-5_10" = some (3, -5, 10) ∧
    (splitUnd "3_-5_10".data).length = 3 :=
  ⟨C7_theorem.1, (C7_theorem.2.2 "3_-5_10" (3, -5, 10) C7_theorem.1).1⟩

/-- C6: for parsed coordinate inputs, `dissociate_locations` returns
`a_to_b = studiesAt c1 \ studiesAt c2` and `b_to_a = studiesAt c2 \
studiesAt c1`; the two sets are disjoint, and their union avoids every
study shared by both coordinates. -/
theorem C6_theorem (rows : List CoordRow) (coords1 coords2 : String)
    (c1 c2 : Int × Int × Int) (h1 : parseCoords coords1 = some c1)
    (h2 : parseCoords coords2 = some c2) :
    dissociate_locations rows coords1 coords2 =
      some (dissociate_locations_core rows c1 c2) ∧
    (dissociate_locations_core rows c1 c2).a_to_b =
      studiesAt rows c1 \ studiesAt rows c2 ∧
    (dissociate_locations_core rows c1 c2).b_to_a =
      studiesAt rows c2 \ studiesAt rows c1 ∧
    Disjoint (dissociate_locations_core rows c1 c2).a_to_b
      (dissociate_locations_core rows c1 c2).b_to_a ∧
    ((dissociate_locations_core rows c1 c2).a_to_b ∪
        (dissociate_locations_core rows c1 c2).b_to_a) ∩
      (studiesAt rows c1 ∩ studiesAt rows c2) = ∅ := by
  refine ⟨?_, rfl, rfl, disjoint_sdiff_sdiff, ?_⟩
  · unfold dissociate_locations
    rw [h1, h2]
  · ext x
    simp only [dissociate_locations_core, Finset.mem_inter, Finset.mem_union,
      Finset.mem_sdiff, Finset.not_mem_empty, iff_false]
    tauto

/-- C6 witness: `C6_theorem` at the spec's Scenario B. -/
theorem C6_witness :
    parseCoords "0_0_0" = some (0, 0, 0) ∧
    dissociate_locations [⟨1, 0, 0, 0⟩, ⟨2, 0, 0, 0⟩, ⟨2, 1, 1, 1⟩] "0_0_0" "1_1_1" =
      some (dissociate_locations_core [⟨1, 0, 0, 0⟩, ⟨2, 0, 0, 0⟩, ⟨2, 1, 1, 1⟩]
        (0, 0, 0) (1, 1, 1)) :=
  ⟨by decide,
    (C6_theorem [⟨1, 0, 0, 0⟩, ⟨2, 0, 0, 0⟩, ⟨2, 1, 1, 1⟩] "0_0_0" "1_1_1"
      (0, 0, 0) (1, 1, 1) (by decide) (by decide)).1⟩

/-- C2 (amended): `term_count`, `intersection_count` and
`dissociate_terms` depend on their term inputs only through the
underscore-to-space replacement, while `search_term` returns the raw
input unchanged (and, per `C2_cex`, matches on the raw input, where an
underscore is a single-character wildcard). -/
theorem C2_theorem (rows : List Row) (a b : String) :
    term_count rows a = term_count rows (replU a) ∧
    intersection_count rows a b = intersection_count rows (replU a) (replU b) ∧
    dissociate_terms rows a b = dissociate_terms rows (replU a) (replU b) ∧
    (search_term rows a).term = a := by
  refine ⟨?_, ?_, ?_, rfl⟩
  · simp only [term_count, replU_idem]
  · simp only [intersection_count, replU_idem]
  · simp only [dissociate_terms, replU_idem]

/-- C2 counterexample: `search_term` does not replace underscores — the
input `"frontal_cortex"` matches the stored term `"frontalXcortex"`
(underscore acting as a single-character wildcard), although the phrase
`"frontal cortex"` is not contained in that term even case-folded. -/
theorem C2_cex :
    (search_term [(1, "frontalXcortex")] "frontal_cortex").«exists» = true ∧
    substrB (lowerL (replU "frontal_cortex").data)
      (lowerL "frontalXcortex".data) = false := by decide

/-- C1 (amended): for inputs free of the `LIKE`-special characters
(`%`, `_` and the escape `\`), the `ILIKE` predicate used by
`search_term` selects by case-insensitive (case-folded) substring
containment, while the `LIKE` predicate used by `term_count`,
`intersection_count` and `dissociate_terms` selects by case-sensitive
substring containment; accordingly `term_count` counts the case-sensitive
containment set and the `exists` flag of `search_term` reports
case-insensitive containment. -/
theorem C1_theorem (rows : List Row) (q : String) (hw : noWild q.data)
    (hp : noPct q.data) :
    (∀ t : String, ilikeContains q.data t.data =
      substrB (lowerL q.data) (lowerL t.data)) ∧
    (∀ t : String, likeContains (replU q).data t.data =
      substrB (replU q).data t.data) ∧
    (term_count rows q).study_count = (studiesContaining rows (replU q).data).card ∧
    ((search_term rows q).«exists» = true ↔
      ∃ r ∈ rows, substrB (lowerL q.data) (lowerL r.2.data) = true) :=
  ⟨fun t => ilikeContains_eq_substrB q.data t.data hw,
   fun t => likeContains_eq_substrB _ (noWild_mapU _ hp) t.data,
   term_count_card rows q hp,
   search_exists_iff rows q hw⟩

/-- C1 counterexample: the stored term `"Amygdala"` case-folded contains
the case-folded query `"amygdala"`, so the claimed case-insensitive
contract would select study 1, but `term_count` (which uses `LIKE`,
case-sensitive in PostgreSQL) selects nothing. -/
theorem C1_cex :
    (term_count [(1, "Amygdala")] "amygdala").study_count = 0 ∧
    substrB (lowerL "amygdala".data) (lowerL "Amygdala".data) = true ∧
    (studiesMatchingSubstring [(1, "Amygdala")] "amygdala").card = 1 := by decide

/-- C1 witness: `C1_theorem` at the spec's Scenario A. -/
theorem C1_witness :
    noWild "amygdala".data ∧
    (term_count [(1, "amygdala"), (2, "amygdala"), (2, "cortex")] "amygdala").study_count =
      (studiesContaining [(1, "amygdala"), (2, "amygdala"), (2, "cortex")]
        (replU "amygdala").data).card :=
  ⟨by decide,
    (C1_theorem [(1, "amygdala"), (2, "amygdala"), (2, "cortex")] "amygdala"
      (by decide) (by decide)).2.2.1⟩

/-- C4 (amended): `term_count` returns the number of distinct study ids
annotated by some stored term containing the underscore-normalised query
as a case-sensitive substring (the spec claims case-insensitive; see
`C4_cex`), restricted to queries without the `%` wildcard and the `\`
escape; the count is the full cardinality, not capped by the display
limit. -/
theorem C4_theorem (rows : List Row) (t : String) (h : noPct t.data) :
    (term_count rows t).study_count = (studiesContaining rows (replU t).data).card :=
  term_count_card rows t h

/-- C4 counterexample: with the single row `(1, "Amygdala")` the spec-side
set `studiesMatchingSubstring("amygdala")` is `{1}`, but `term_count`
returns 0 because `LIKE` is case-sensitive. -/
theorem C4_cex :
    (term_count [(1, "Amygdala")] "amygdala").study_count = 0 ∧
    (studiesMatchingSubstring [(1, "Amygdala")] "amygdala").card = 1 := by decide

/-- C4 witness: `C4_theorem` at the spec's Scenario A, where the count is
2. -/
theorem C4_witness :
    noPct "amygdala".data ∧
    (term_count [(1, "amygdala"), (2, "amygdala"), (2, "cortex")] "amygdala").study_count = 2 ∧
    (term_count [(1, "amygdala"), (2, "amygdala"), (2, "cortex")] "amygdala").study_count =
      (studiesContaining [(1, "amygdala"), (2, "amygdala"), (2, "cortex")]
        (replU "amygdala").data).card :=
  ⟨by decide, by decide,
    C4_theorem [(1, "amygdala"), (2, "amygdala"), (2, "cortex")] "amygdala" (by decide)⟩

/-- C5 (amended): `intersection_count` is commutative in its returned
count, and for inputs without `%` and the `\` escape the count is the
cardinality of the intersection of the two case-sensitive containment
sets (the spec claims the case-insensitive sets; see `C5_cex`). -/
theorem C5_theorem (rows : List Row) (a b : String) :
    (intersection_count rows a b).intersection_count =
      (intersection_count rows b a).intersection_count ∧
    (noPct a.data → noPct b.data →
      (intersection_count rows a b).intersection_count =
        (studiesContaining rows (replU a).data ∩
          studiesContaining rows (replU b).data).card) := by
  constructor
  · rw [intersection_count_val, intersection_count_val, Finset.inter_comm]
  · intro ha hb
    rw [intersection_count_val, studiesLike_eq rows (replU a) (noWild_mapU a.data ha),
      studiesLike_eq rows (replU b) (noWild_mapU b.data hb)]

/-- C5 counterexample: with the single row `(1, "Amygdala")` the
intersection of the spec-side sets for `"amygdala"` and `"amy"` has
cardinality 1, but `intersection_count` returns 0 because `LIKE` is
case-sensitive. -/
theorem C5_cex :
    (intersection_count [(1, "Amygdala")] "amygdala" "amy").intersection_count = 0 ∧
    (studiesMatchingSubstring [(1, "Amygdala")] "amygdala" ∩
      studiesMatchingSubstring [(1, "Amygdala")] "amy").card = 1 := by decide

/-- C5 witness: `C5_theorem` at the spec's Scenario A, where the
intersection count is 1. -/
theorem C5_witness :
    (intersection_count [(1, "amygdala"), (2, "amygdala"), (2, "cortex")]
        "amygdala" "cortex").intersection_count =
      (intersection_count [(1, "amygdala"), (2, "amygdala"), (2, "cortex")]
        "cortex" "amygdala").intersection_count ∧
    (intersection_count [(1, "amygdala"), (2, "amygdala"), (2, "cortex")]
        "amygdala" "cortex").intersection_count =
      (studiesContaining [(1, "amygdala"), (2, "amygdala"), (2, "cortex")]
          (replU "amygdala").data ∩
        studiesContaining [(1, "amygdala"), (2, "amygdala"), (2, "cortex")]
          (replU "cortex").data).card :=
  ⟨(C5_theorem [(1, "amygdala"), (2, "amygdala"), (2, "cortex")] "amygdala" "cortex").1,
    (C5_theorem [(1, "amygdala"), (2, "amygdala"), (2, "cortex")] "amygdala" "cortex").2
      (by decide) (by decide)⟩

/-- The study set listed by `dissociate_terms` is the difference of the
two case-sensitive containment sets. -/
theorem dissociate_terms_set (rows : List Row) (a b : String)
    (ha : noPct a.data) (hb : noPct b.data) :
    (dissociate_terms rows a b).dissociated_studies.toFinset =
      studiesContaining rows (replU a).data \ studiesContaining rows (replU b).data := by
  have hwa : noWild (replU a).data := noWild_mapU a.data ha
  have hwb : noWild (replU b).data := noWild_mapU b.data hb
  have hds : (dissociate_terms rows a b).dissociated_studies =
      ((rows.filter fun r : Row =>
        likeContains (replU a).data r.2.data &&
          !decide (r.1 ∈ (rows.filter fun r =>
            likeContains (replU b).data r.2.data).map (·.1))).map (·.1)).dedup := rfl
  rw [hds, dedup_toFinsetN]
  ext x
  simp only [List.mem_toFinset, List.mem_map, List.mem_filter, Bool.and_eq_true,
    Bool.not_eq_true', decide_eq_false_iff_not, Finset.mem_sdiff, studiesContaining,
    likeContains_eq_substrB _ hwa, likeContains_eq_substrB _ hwb]
  constructor
  · rintro ⟨r, ⟨⟨hr, hsubA, hnot⟩, rfl⟩⟩
    exact ⟨⟨r, ⟨hr, hsubA⟩, rfl⟩, hnot⟩
  · rintro ⟨⟨r, ⟨hr, hsubA⟩, rfl⟩, hnot⟩
    exact ⟨r, ⟨⟨hr, hsubA, hnot⟩, rfl⟩⟩

/-- C3 (amended): `dissociate_terms(a, b)` lists exactly the difference
`A \ B` of the two case-sensitive containment sets (the spec claims the
case-insensitive sets; see `C3_cex`), for inputs without `%` and the
`\` escape; the result is disjoint from `B` and `study_count` is
`|A \ B|`. -/
theorem C3_theorem (rows : List Row) (a b : String) (ha : noPct a.data)
    (hb : noPct b.data) :
    (dissociate_terms rows a b).dissociated_studies.toFinset =
      studiesContaining rows (replU a).data \ studiesContaining rows (replU b).data ∧
    Disjoint ((dissociate_terms rows a b).dissociated_studies.toFinset)
      (studiesContaining rows (replU b).data) ∧
    (dissociate_terms rows a b).study_count =
      (studiesContaining rows (replU a).data \
        studiesContaining rows (replU b).data).card := by
  have hset := dissociate_terms_set rows a b ha hb
  refine ⟨hset, ?_, ?_⟩
  · rw [hset]
    exact Finset.sdiff_disjoint
  · have hc : (dissociate_terms rows a b).study_count =
        (dissociate_terms rows a b).dissociated_studies.length := rfl
    have hnd : (dissociate_terms rows a b).dissociated_studies.Nodup :=
      List.nodup_dedup _
    rw [hc, ← hset]
    exact (List.toFinset_card_of_nodup hnd).symm

/-- C3 counterexample: with the single row `(1, "Amygdala")` the spec-side
difference for `("amygdala", "qq")` is `{1}`, but `dissociate_terms`
returns the empty list because `LIKE` is case-sensitive. -/
theorem C3_cex :
    (dissociate_terms [(1, "Amygdala")] "amygdala" "qq").dissociated_studies = [] ∧
    (studiesMatchingSubstring [(1, "Amygdala")] "amygdala" \
      studiesMatchingSubstring [(1, "Amygdala")] "qq") = {1} := by decide

/-- C3 witness: `C3_theorem` at the spec's Scenario A with the pair
`("amygdala", "cortex")`. -/
theorem C3_witness :
    noPct "amygdala".data ∧
    (dissociate_terms [(1, "amygdala"), (2, "amygdala"), (2, "cortex")]
        "amygdala" "cortex").study_count =
      (studiesContaining [(1, "amygdala"), (2, "amygdala"), (2, "cortex")]
          (replU "amygdala").data \
        studiesContaining [(1, "amygdala"), (2, "amygdala"), (2, "cortex")]
          (replU "cortex").data).card :=
  ⟨by decide,
    (C3_theorem [(1, "amygdala"), (2, "amygdala"), (2, "cortex")] "amygdala" "cortex"
      (by decide) (by decide)).2.2⟩

/-- C8 (amended): for inputs free of the `LIKE`-special characters
(`%`, `_` and the escape `\`), `search_term` returns at most 10 distinct
stored terms, each of which case-folded contains the case-folded input
as a substring, and its `exists` flag is true iff the match list is
non-empty.  (For inputs containing `_`, `%` or `\` the pattern
semantics applies instead; see `C8_cex`.) -/
theorem C8_theorem (rows : List Row) (t : String) (h : noWild t.data) :
    (search_term rows t).«matches».length ≤ 10 ∧
    (search_term rows t).«matches».Nodup ∧
    (∀ m ∈ (search_term rows t).«matches»,
      (∃ r ∈ rows, r.2 = m) ∧ substrB (lowerL t.data) (lowerL m.data) = true) ∧
    ((search_term rows t).«exists» = true ↔ (search_term rows t).«matches» ≠ []) := by
  have hm : (search_term rows t).«matches» =
      (((rows.filter fun r => ilikeContains t.data r.2.data).map (·.2)).dedup).take 10 :=
    rfl
  refine ⟨?_, ?_, ?_, ?_⟩
  · rw [hm]
    exact List.length_take_le _ _
  · rw [hm]
    exact List.Nodup.sublist (List.take_sublist _ _) (List.nodup_dedup _)
  · intro m hmem
    rw [hm] at hmem
    have h1 := List.mem_dedup.mp (List.mem_of_mem_take hmem)
    rcases List.mem_map.mp h1 with ⟨r, hr, rfl⟩
    have h2 := List.mem_filter.mp hr
    refine ⟨⟨r, h2.1, rfl⟩, ?_⟩
    rw [← ilikeContains_eq_substrB t.data r.2.data h]
    exact h2.2
  · have he : (search_term rows t).«exists» =
        decide (0 < (search_term rows t).«matches».length) := rfl
    rw [he, decide_eq_true_eq]
    exact List.length_pos

/-- C8 counterexample: for the input `"a_c"` the returned match `"abc"`
does not contain the input as a substring (even case-folded) — the
underscore acted as a single-character wildcard, contradicting the claim
for wildcard-carrying inputs. -/
theorem C8_cex :
    (search_term [(1, "abc")] "a_c").«matches» = ["abc"] ∧
    substrB (lowerL "a_c".data) (lowerL "abc".data) = false := by decide

/-- C8 witness: `C8_theorem` at the spec's Scenario A query `"amygd"`. -/
theorem C8_witness :
    noWild "amygd".data ∧
    (search_term [(1, "amygdala"), (2, "amygdala"), (2, "cortex")] "amygd").«matches».length ≤ 10 :=
  ⟨by decide,
    (C8_theorem [(1, "amygdala"), (2, "amygdala"), (2, "cortex")] "amygd" (by decide)).1⟩

/-- C9: no-match conditions are not errors: when no stored term matches
the query (`ILIKE` for `search_term`, `LIKE` for the counting routes) and
no coordinate row matches the queried point, every operation returns a
well-formed empty payload — `exists: false`, empty match list, zero
counts, empty lists, empty sets.  With `rows = []` and `crows = []` this
is the spec's empty-index Scenario C. -/
theorem C9_theorem (rows : List Row) (crows : List CoordRow) (t b : String)
    (c : Int × Int × Int)
    (hs : ∀ r ∈ rows, ilikeContains t.data r.2.data = false)
    (hl : ∀ r ∈ rows, likeContains (replU t).data r.2.data = false)
    (hc : ∀ r ∈ crows, ¬(r.x = c.1 ∧ r.y = c.2.1 ∧ r.z = c.2.2)) :
    (search_term rows t).«exists» = false ∧
    (search_term rows t).«matches» = [] ∧
    (term_count rows t).study_count = 0 ∧
    (intersection_count rows t b).intersection_count = 0 ∧
    (dissociate_terms rows t b).study_count = 0 ∧
    (dissociate_terms rows t b).dissociated_studies = [] ∧
    studiesAt crows c = ∅ := by
  have hfs : (rows.filter fun r => ilikeContains t.data r.2.data) = [] := filter_none hs
  have hfl : (rows.filter fun r => likeContains (replU t).data r.2.data) = [] :=
    filter_none hl
  have hfd : (rows.filter fun r : Row =>
      likeContains (replU t).data r.2.data &&
        !decide (r.1 ∈ (rows.filter fun r =>
          likeContains (replU b).data r.2.data).map (·.1))) = [] :=
    filter_none fun r hr => by rw [hl r hr]; rfl
  have hfc : (crows.filter fun r =>
      decide (r.x = c.1 ∧ r.y = c.2.1 ∧ r.z = c.2.2)) = [] :=
    filter_none fun r hr => decide_eq_false (hc r hr)
  refine ⟨?_, ?_, ?_, ?_, ?_, ?_, ?_⟩
  · show decide (0 < ((((rows.filter fun r =>
        ilikeContains t.data r.2.data).map (·.2)).dedup).take 10).length) = false
    rw [hfs]
    rfl
  · show ((((rows.filter fun r =>
        ilikeContains t.data r.2.data).map (·.2)).dedup).take 10) = []
    rw [hfs]
    rfl
  · show (((rows.filter fun r =>
        likeContains (replU t).data r.2.data).map (·.1)).dedup).length = 0
    rw [hfl]
    rfl
  · show (sqlIntersect ((rows.filter fun r =>
        likeContains (replU t).data r.2.data).map (·.1)) _).length = 0
    rw [hfl]
    rfl
  · show (((rows.filter fun r : Row =>
        likeContains (replU t).data r.2.data &&
          !decide (r.1 ∈ (rows.filter fun r =>
            likeContains (replU b).data r.2.data).map (·.1))).map (·.1)).dedup).length = 0
    rw [hfd]
    rfl
  · show (((rows.filter fun r : Row =>
        likeContains (replU t).data r.2.data &&
          !decide (r.1 ∈ (rows.filter fun r =>
            likeContains (replU b).data r.2.data).map (·.1))).map (·.1)).dedup) = []
    rw [hfd]
    rfl
  · show ((crows.filter fun r =>
        decide (r.x = c.1 ∧ r.y = c.2.1 ∧ r.z = c.2.2)).map (·.study_id)).toFinset = ∅
    rw [hfc]
    rfl

/-- C9 witness: `C9_theorem` on the empty index — the spec's Scenario C. -/
theorem C9_witness :
    (search_term [] "amygdala").«exists» = false ∧
    (term_count [] "amygdala").study_count = 0 ∧
    studiesAt [] (0, 0, 0) = ∅ := by
  obtain ⟨h1, _, h3, _, _, _, h7⟩ :=
    C9_theorem [] [] "amygdala" "cortex" (0, 0, 0) (by simp) (by simp) (by simp)
  exact ⟨h1, h3, h7⟩

end YoMuscle
